import Mathlib

/-!
Verification development for the vhi-resource-api cluster-usage aggregation
engine (`src/clusterUsage.go`, `getTotalUsage`) and the billing CPU-percentage
derivation (`src/billing.go`, `CalculateCPUUsage`).

The Go code is shallowly embedded: the upstream HTTP collaborators (Keystone
project listing, Gnocchi instance inventory, Gnocchi metric measures) become
oracle functions returning `Except`, `ctx.Err()` observations become boolean
flags (one per observation point, since each goroutine samples the context at
its own moment), Go float64 arithmetic is modelled over `ℚ` (all constants in
the claims are exactly representable), and the concurrent fan-out is modelled
by its per-task contribution function: every dispatched task contributes a
CPU amount, a RAM amount and a list of error records, totals being the
(commutative) sums and the error list the union.  Response timestamps
(`time.Now`) are environment noise and are not modelled.
-/

namespace VhiResource

/-- One point of a Gnocchi measure series (`MetricMeasure` in `gnocchi.go`).
The RFC3339 timestamp string is embedded as its parsed time value (seconds,
as produced by `time.Parse` + `Sub(...).Seconds()` in the Go code). -/
structure MetricMeasure where
  timestamp : ℚ
  value : ℚ
  deriving Repr, DecidableEq

/-- Structure `GnocchiInstance` from `gnocchi.go`: the Go `map[string]string` of metric
name → metric id is embedded as an association list with `List.lookup`. -/
structure GnocchiInstance where
  id : String
  displayName : String
  metrics : List (String × String)
  projectID : String
  deriving Repr, DecidableEq

/-- Structure `KeystoneProject` from `auth.go`. -/
structure KeystoneProject where
  id : String
  name : String
  domainID : String
  deriving Repr, DecidableEq

/-- Structure `UsageError` from `clusterUsage.go` (empty string = omitted field). -/
structure UsageError where
  domainName : String
  instanceID : String
  projectID : String
  error : String
  deriving Repr, DecidableEq

/-- Structure `TotalUsage`, the response body from `clusterUsage.go` (timestamp omitted). -/
structure TotalUsage where
  totalVMs : ℕ
  cpuCoresUsed : ℚ
  ramUsedGB : ℚ
  errors : List UsageError
  deriving Repr, DecidableEq

/-- The anonymous `instanceWithDomain` struct inside `getTotalUsage`. -/
structure InstanceWithDomain where
  inst : GnocchiInstance
  domainName : String
  deriving Repr, DecidableEq

/-- Outcome of the HTTP handler: either `http.Error(w, msg, status)` or a
JSON-encoded `TotalUsage` body with the written status code. -/
inductive HandlerResult where
  | httpError (status : ℕ) (msg : String)
  | response (status : ℕ) (body : TotalUsage)
  deriving Repr, DecidableEq

/-- Oracle for `gnocchiClient.GetMetricMeasures`: metric id → error or the
time-ordered measure list. -/
abbrev Fetch := String → Except String (List MetricMeasure)

/-- Go map insertion `m[k] = v` (last write wins) on the association-list
embedding of `map[string]string`. -/
def mapInsert (m : List (String × String)) (k v : String) :
    List (String × String) :=
  match m with
  | [] => [(k, v)]
  | (k', v') :: rest =>
      if k' = k then (k, v) :: rest else (k', v') :: mapInsert rest k v

/-- The inner loop `for _, p := range projects { projectToDomain[p.ID] = domainName }`. -/
def insertProjects (m : List (String × String)) (projects : List KeystoneProject)
    (domainName : String) : List (String × String) :=
  match projects with
  | [] => m
  | p :: rest => insertProjects (mapInsert m p.id domainName) rest domainName

/-- The domain-resolution loop of `getTotalUsage` (clusterUsage.go:227-263).
`listProjects` is the oracle for `ListProjectsForDomainName`; `ctxErrAt i`
tells whether `ctx.Err() != nil` when the loop reaches its `i`-th domain
(the `break` on cancellation stops all further resolution). -/
def resolveScopeGo (listProjects : String → Except String (List KeystoneProject))
    (ctxErrAt : ℕ → Bool) (i : ℕ) (domainNames : List String)
    (acc : List (String × String)) (errs : List UsageError) :
    List (String × String) × List UsageError :=
  match domainNames with
  | [] => (acc, errs)
  | d :: rest =>
      if ctxErrAt i then
        (acc, errs ++ [{ domainName := d, instanceID := "", projectID := "",
                         error := "context cancelled while resolving domain" }])
      else
        match listProjects d with
        | .error e =>
            resolveScopeGo listProjects ctxErrAt (i + 1) rest acc
              (errs ++ [{ domainName := d, instanceID := "", projectID := "",
                          error := "failed to list projects for domain: " ++ e }])
        | .ok [] =>
            resolveScopeGo listProjects ctxErrAt (i + 1) rest acc
              (errs ++ [{ domainName := d, instanceID := "", projectID := "",
                          error := "no projects found for domain" }])
        | .ok projects =>
            resolveScopeGo listProjects ctxErrAt (i + 1) rest
              (insertProjects acc projects d) errs

/-- Scope resolution starting from the empty map and error list. -/
def resolveScope (listProjects : String → Except String (List KeystoneProject))
    (ctxErrAt : ℕ → Bool) (domainNames : List String) :
    List (String × String) × List UsageError :=
  resolveScopeGo listProjects ctxErrAt 0 domainNames [] []

/-- Filtering of the Gnocchi inventory to the resolved scope
(clusterUsage.go:295-303). -/
def scopedTargets (projectToDomain : List (String × String))
    (instances : List GnocchiInstance) : List InstanceWithDomain :=
  instances.filterMap fun inst =>
    match List.lookup inst.projectID projectToDomain with
    | some domainName => some { inst := inst, domainName := domainName }
    | none => none

/-- The `vcpus` block of a worker task (clusterUsage.go:340-363): contribution
to `totalCPUCoresUsed` plus the error records it appends. -/
def vcpuPhase (fetch : Fetch) (t : InstanceWithDomain) : ℚ × List UsageError :=
  match List.lookup "vcpus" t.inst.metrics with
  | some vcpuMetricID =>
      match fetch vcpuMetricID with
      | .error e =>
          (0, [{ domainName := t.domainName, instanceID := t.inst.id,
                 projectID := t.inst.projectID,
                 error := "failed to get vcpus measures: " ++ e }])
      | .ok measures =>
          match measures.getLast? with
          | some m => (m.value, [])
          | none => (0, [])
  | none => (0, [])

/-- The `memory` block of a worker task (clusterUsage.go:368-393): the most
recent sample is in MB and is divided by 1024 before being added. -/
def memoryPhase (fetch : Fetch) (t : InstanceWithDomain) : ℚ × List UsageError :=
  match List.lookup "memory" t.inst.metrics with
  | some memMetricID =>
      match fetch memMetricID with
      | .error e =>
          (0, [{ domainName := t.domainName, instanceID := t.inst.id,
                 projectID := t.inst.projectID,
                 error := "failed to get memory measures: " ++ e }])
      | .ok memMeasures =>
          match memMeasures.getLast? with
          | some m => (m.value / 1024, [])
          | none => (0, [])
  | none => (0, [])

/-- One whole worker task (clusterUsage.go:315-394): `ctxErr` is the value of
`ctx.Err() != nil` observed at the task's start; a cancelled task records one
error and performs no metric fetch. Result: (cpu contribution, ram
contribution, appended error records). -/
def processTarget (fetch : Fetch) (ctxErr : Bool) (t : InstanceWithDomain) :
    ℚ × ℚ × List UsageError :=
  if ctxErr then
    (0, 0, [{ domainName := t.domainName, instanceID := t.inst.id,
              projectID := t.inst.projectID,
              error := "context cancelled while processing instance" }])
  else
    ((vcpuPhase fetch t).1, (memoryPhase fetch t).1,
     (vcpuPhase fetch t).2 ++ (memoryPhase fetch t).2)

/-- The fan-out over all targets (clusterUsage.go:308-397): each dispatched
task contributes once; the shared totals are the sums of the per-task
contributions and the shared error slice collects every task's records
(`ctxErrAt i` is task `i`'s own context observation). -/
def runTargets (fetch : Fetch) (ctxErrAt : ℕ → Bool)
    (targets : List InstanceWithDomain) : ℚ × ℚ × List UsageError :=
  let results := targets.enum.map fun p => processTarget fetch (ctxErrAt p.1) p.2
  ((results.map fun r => r.1).sum,
   (results.map fun r => r.2.1).sum,
   (results.map fun r => r.2.2).flatten)

/-- Assembly of the `TotalUsage` body (clusterUsage.go:406-412): `total_vms`
is the scoped count fixed before dispatch, and the error slice holds the
scope-resolution errors followed by the task errors. -/
def aggregateUsage (fetch : Fetch) (ctxErrAt : ℕ → Bool)
    (scopeErrors : List UsageError) (targets : List InstanceWithDomain) :
    TotalUsage :=
  let r := runTargets fetch ctxErrAt targets
  { totalVMs := targets.length
    cpuCoresUsed := r.1
    ramUsedGB := r.2.1
    errors := scopeErrors ++ r.2.2 }

/-- The environment of one `getTotalUsage` request: oracles for every
upstream call and the context observations of the sequential resolution loop
and of each dispatched task. -/
structure Env where
  loadDomains : Except String (List String)
  getAdminToken : Except String String
  listProjects : String → Except String (List KeystoneProject)
  resolveCtxErr : ℕ → Bool
  getAllInstances : Except String (List GnocchiInstance)
  fetch : Fetch
  taskCtxErr : ℕ → Bool

/-- Final write of the aggregate (clusterUsage.go:414-419): 206 Partial
Content when the error slice is non-empty, Go's implicit 200 otherwise. -/
def aggregateResponse (body : TotalUsage) : HandlerResult :=
  .response (if body.errors.length > 0 then 206 else 200) body

/-- The `getTotalUsage` HTTP handler (clusterUsage.go:196-420): domain-file
load (500 on failure, 400 on empty list), admin token (401 on failure),
scope resolution (per-domain errors, never fatal), Gnocchi inventory (500 on
failure), scope filtering, bounded fan-out aggregation, and the final status:
206 when the combined error list is non-empty, 200 otherwise. -/
def getTotalUsage (env : Env) : HandlerResult :=
  match env.loadDomains with
  | .error e => .httpError 500 ("failed to load domain list: " ++ e)
  | .ok domainNames =>
      if domainNames.length = 0 then
        .httpError 400 "no domains configured in domain.txt"
      else
        match env.getAdminToken with
        | .error e => .httpError 401 ("failed to authenticate admin: " ++ e)
        | .ok _ =>
            let scope := resolveScope env.listProjects env.resolveCtxErr domainNames
            match env.getAllInstances with
            | .error e =>
                .httpError 500 ("Failed to get instances from Gnocchi: " ++ e)
            | .ok instances =>
                aggregateResponse
                  (aggregateUsage env.fetch env.taskCtxErr scope.2
                    (scopedTargets scope.1 instances))

/-- The interval-filtering loop of `CalculateCPUUsage` (billing.go:116-192),
restricted to the percentage series that feeds every statistic (average,
median, 95th percentile, min, max, hourly and daily rollups): consecutive
measure pairs are kept unless the cumulative delta is negative, the time
delta is non-positive, or the computed percentage falls outside [0, 110].
`v` is `float64(numVCPUs)` after the `numVCPUs <= 0 → 1` defaulting. -/
def cpuPercentLoop (v : ℚ) : List MetricMeasure → List ℚ
  | m1 :: m2 :: rest =>
      let deltaCPU := m2.value - m1.value
      if deltaCPU < 0 then cpuPercentLoop v (m2 :: rest)
      else
        let deltaTime := m2.timestamp - m1.timestamp
        if deltaTime ≤ 0 then cpuPercentLoop v (m2 :: rest)
        else
          let cpuPercent := deltaCPU / (deltaTime * v * 10 ^ 9) * 100
          if cpuPercent < 0 ∨ cpuPercent > 100 * (11 / 10) then
            cpuPercentLoop v (m2 :: rest)
          else cpuPercent :: cpuPercentLoop v (m2 :: rest)
  | _ => []

/-- Entry conditions of `CalculateCPUUsage` (billing.go:97-106): fewer than two
measures yield the empty statistics, and a non-positive `numVCPUs` defaults
to 1; otherwise the loop above produces the retained percentage series. -/
def calculateCPUPercentages (measures : List MetricMeasure) (numVCPUs : ℤ) :
    List ℚ :=
  if measures.length < 2 then []
  else cpuPercentLoop (if numVCPUs ≤ 0 then 1 else (numVCPUs : ℚ)) measures

/-- Modelled from the spec's words for the refinement claim about
`CalculateCPUUsage`: each consecutive interval's percentage is
`(Δcumulative_ns / (Δtime_s × vcpus × 1e9)) × 100`, and an interval is
excluded exactly when its cumulative delta is negative or its percentage
lies outside [0, 110]. -/
def specCPUPercentages (measures : List MetricMeasure) (v : ℚ) : List ℚ :=
  (measures.zip measures.tail).filterMap fun p =>
    let pct := (p.2.value - p.1.value) / ((p.2.timestamp - p.1.timestamp) * v * 10 ^ 9) * 100
    if p.2.value - p.1.value < 0 ∨ pct < 0 ∨ pct > 110 then none else some pct

/-!
Semaphore model for the bounded fan-out (clusterUsage.go:308-320).  Each
dispatched goroutine first executes `semaphore <- struct{}{}` (blocking until
fewer than `cap` permits are held) and holds its permit throughout its
network-I/O section, releasing it by `defer func() { <-semaphore }()` on
every exit path — success, per-metric failure, or the early cancellation
return.  A task's lifetime is therefore: `waiting` (before the send on the
semaphore channel) → `inFlight` (permit held, inside the I/O section) →
`finished` (permit released via the deferred receive).  The scheduler
interleaves the per-task transitions arbitrarily.
-/

/-- Per-task phase of the semaphore protocol. -/
inductive Phase where
  | waiting
  | inFlight
  | finished
  deriving Repr, DecidableEq

/-- Number of tasks currently holding a permit (inside their I/O section). -/
def inFlightCount (phases : List Phase) : ℕ :=
  phases.countP fun p => p = Phase.inFlight

/-- One scheduler step of the semaphore-bounded fan-out: an `acquire` is
enabled only while fewer than `cap` permits are held (the channel send
blocks otherwise); a `release` is always enabled for a permit holder (the
deferred receive runs on every exit path). -/
inductive SemStep (cap : ℕ) : List Phase → List Phase → Prop where
  | acquire (pre post : List Phase)
      (h : inFlightCount (pre ++ Phase.waiting :: post) < cap) :
      SemStep cap (pre ++ Phase.waiting :: post) (pre ++ Phase.inFlight :: post)
  | release (pre post : List Phase) :
      SemStep cap (pre ++ Phase.inFlight :: post) (pre ++ Phase.finished :: post)

/-- States reachable from the initial configuration in which all `n`
dispatched tasks are waiting. -/
def SemReachable (cap n : ℕ) (s : List Phase) : Prop :=
  Relation.ReflTransGen (SemStep cap) (List.replicate n Phase.waiting) s

/-! Analysis helpers: observables of one (VM, metric) pair, read off the
same oracles the worker tasks consult. -/

/-- The most recent sample value of a metric, when the metric key is present,
its fetch succeeds and the measure list is non-empty. -/
def lastSample? (fetch : Fetch) (inst : GnocchiInstance) (key : String) :
    Option ℚ :=
  match List.lookup key inst.metrics with
  | some mid =>
      match fetch mid with
      | .ok ms => ms.getLast?.map (fun m => m.value)
      | .error _ => none
  | none => none

/-- Whether the metric's fetch produced a usable most-recent sample. -/
def metricAdded (fetch : Fetch) (inst : GnocchiInstance) (key : String) : Bool :=
  (lastSample? fetch inst key).isSome

/-- The most recent sample value, defaulting to 0. -/
def sampleValue (fetch : Fetch) (inst : GnocchiInstance) (key : String) : ℚ :=
  (lastSample? fetch inst key).getD 0

/-- Whether the metric key is present and its fetch fails. -/
def metricFailed (fetch : Fetch) (inst : GnocchiInstance) (key : String) : Bool :=
  match List.lookup key inst.metrics with
  | some mid =>
      match fetch mid with
      | .error _ => true
      | .ok _ => false
  | none => false

/-- Whether the metric call, if one is made at all, succeeds. -/
def metricCallOk (fetch : Fetch) (inst : GnocchiInstance) (key : String) : Bool :=
  match List.lookup key inst.metrics with
  | some mid =>
      match fetch mid with
      | .ok _ => true
      | .error _ => false
  | none => true

/-- Whether a task ran uncancelled and both of its metric calls succeeded. -/
def bothCallsSucceeded (fetch : Fetch) (ctxErr : Bool)
    (t : InstanceWithDomain) : Bool :=
  !ctxErr && metricCallOk fetch t.inst "vcpus" && metricCallOk fetch t.inst "memory"

/-- The error record a cancelled task appends (clusterUsage.go:325-330). -/
def cancelError (t : InstanceWithDomain) : UsageError :=
  { domainName := t.domainName, instanceID := t.inst.id,
    projectID := t.inst.projectID,
    error := "context cancelled while processing instance" }

/-- Status code written by the handler (200 is Go's implicit default). -/
def HandlerResult.status : HandlerResult → ℕ
  | .httpError s _ => s
  | .response s _ => s

/-- The JSON body, when the handler reached the encode step. -/
def HandlerResult.body? : HandlerResult → Option TotalUsage
  | .httpError _ _ => none
  | .response _ b => some b

/-! Shared lemmas about one worker task. -/

theorem vcpuPhase_fst (f : Fetch) (t : InstanceWithDomain) :
    (vcpuPhase f t).1 =
      if metricAdded f t.inst "vcpus" then sampleValue f t.inst "vcpus" else 0 := by
  unfold vcpuPhase metricAdded sampleValue lastSample?
  cases h1 : List.lookup "vcpus" t.inst.metrics with
  | none => rfl
  | some mid =>
      cases h2 : f mid with
      | error e => simp [h2]
      | ok ms =>
          cases h3 : ms.getLast? with
          | none => simp [h2, h3]
          | some m => simp [h2, h3]

theorem memoryPhase_fst (f : Fetch) (t : InstanceWithDomain) :
    (memoryPhase f t).1 =
      if metricAdded f t.inst "memory" then sampleValue f t.inst "memory" / 1024
      else 0 := by
  unfold memoryPhase metricAdded sampleValue lastSample?
  cases h1 : List.lookup "memory" t.inst.metrics with
  | none => rfl
  | some mid =>
      cases h2 : f mid with
      | error e => simp [h2]
      | ok ms =>
          cases h3 : ms.getLast? with
          | none => simp [h2, h3]
          | some m => simp [h2, h3]

theorem vcpuPhase_errs_length (f : Fetch) (t : InstanceWithDomain) :
    (vcpuPhase f t).2.length = if metricFailed f t.inst "vcpus" then 1 else 0 := by
  unfold vcpuPhase metricFailed
  cases h1 : List.lookup "vcpus" t.inst.metrics with
  | none => rfl
  | some mid =>
      cases h2 : f mid with
      | error e => simp [h2]
      | ok ms =>
          cases h3 : ms.getLast? with
          | none => simp [h2, h3]
          | some m => simp [h2, h3]

theorem memoryPhase_errs_length (f : Fetch) (t : InstanceWithDomain) :
    (memoryPhase f t).2.length = if metricFailed f t.inst "memory" then 1 else 0 := by
  unfold memoryPhase metricFailed
  cases h1 : List.lookup "memory" t.inst.metrics with
  | none => rfl
  | some mid =>
      cases h2 : f mid with
      | error e => simp [h2]
      | ok ms =>
          cases h3 : ms.getLast? with
          | none => simp [h2, h3]
          | some m => simp [h2, h3]

theorem processTarget_cancelled (f : Fetch) (t : InstanceWithDomain) :
    processTarget f true t = (0, 0, [cancelError t]) := rfl

theorem processTarget_fst (f : Fetch) (b : Bool) (t : InstanceWithDomain) :
    (processTarget f b t).1 =
      if b then 0
      else if metricAdded f t.inst "vcpus" then sampleValue f t.inst "vcpus"
      else 0 := by
  cases b with
  | true => rfl
  | false => simpa [processTarget] using vcpuPhase_fst f t

theorem processTarget_snd (f : Fetch) (b : Bool) (t : InstanceWithDomain) :
    (processTarget f b t).2.1 =
      if b then 0
      else if metricAdded f t.inst "memory" then sampleValue f t.inst "memory" / 1024
      else 0 := by
  cases b with
  | true => rfl
  | false => simpa [processTarget] using memoryPhase_fst f t

theorem processTarget_errs_length (f : Fetch) (b : Bool) (t : InstanceWithDomain) :
    (processTarget f b t).2.2.length =
      if b then 1
      else (if metricFailed f t.inst "vcpus" then 1 else 0)
        + (if metricFailed f t.inst "memory" then 1 else 0) := by
  cases b with
  | true => rfl
  | false =>
      simp [processTarget, vcpuPhase_errs_length, memoryPhase_errs_length]

theorem runTargets_eq (f : Fetch) (c : ℕ → Bool)
    (targets : List InstanceWithDomain) :
    runTargets f c targets =
      ((targets.enum.map fun p => (processTarget f (c p.1) p.2).1).sum,
       (targets.enum.map fun p => (processTarget f (c p.1) p.2).2.1).sum,
       (targets.enum.map fun p => (processTarget f (c p.1) p.2).2.2).flatten) := by
  unfold runTargets
  simp only [List.map_map]
  rfl

/-! Concrete request fixtures used by the scenario claims. -/

/-- VM A of the literal scenario: CPU sample 1.5, memory sample 2048 MB. -/
def instA : GnocchiInstance :=
  { id := "vm-a", displayName := "A",
    metrics := [("vcpus", "cpu-a"), ("memory", "mem-a")], projectID := "p1" }

/-- VM B of the literal scenario: CPU sample 2.0, no memory metric key. -/
def instB : GnocchiInstance :=
  { id := "vm-b", displayName := "B",
    metrics := [("vcpus", "cpu-b")], projectID := "p1" }

/-- Measure oracle of the literal scenario. -/
def fetchLiteral : Fetch := fun mid =>
  if mid = "cpu-a" then .ok [{ timestamp := 0, value := 3 / 2 }]
  else if mid = "mem-a" then .ok [{ timestamp := 0, value := 2048 }]
  else if mid = "cpu-b" then .ok [{ timestamp := 0, value := 2 }]
  else .error "unknown metric"

/-- Fully healthy environment with the two literal-scenario VMs in scope. -/
def envLiteral : Env :=
  { loadDomains := .ok ["dom1"]
    getAdminToken := .ok "token"
    listProjects := fun _ => .ok [{ id := "p1", name := "proj-one", domainID := "d1" }]
    resolveCtxErr := fun _ => false
    getAllInstances := .ok [instA, instB]
    fetch := fetchLiteral
    taskCtxErr := fun _ => false }

/-- A VM with only a `vcpus` metric, used for the mixed-failure scenario. -/
def cpuOnlyInst (n : String) (mid : String) : GnocchiInstance :=
  { id := "vm-" ++ n, displayName := n, metrics := [("vcpus", mid)],
    projectID := "p1" }

/-- Measure oracle of the mixed-failure scenario: three CPU series fail,
seven succeed with values 4..10. -/
def fetchMixed : Fetch := fun mid =>
  match mid with
  | "cpu-1" | "cpu-2" | "cpu-3" => .error "cpu fetch down"
  | "cpu-4" => .ok [{ timestamp := 0, value := 4 }]
  | "cpu-5" => .ok [{ timestamp := 0, value := 5 }]
  | "cpu-6" => .ok [{ timestamp := 0, value := 6 }]
  | "cpu-7" => .ok [{ timestamp := 0, value := 7 }]
  | "cpu-8" => .ok [{ timestamp := 0, value := 8 }]
  | "cpu-9" => .ok [{ timestamp := 0, value := 9 }]
  | "cpu-10" => .ok [{ timestamp := 0, value := 10 }]
  | _ => .error "unknown metric"

/-- Ten in-scope VMs, the first three with failing CPU fetches. -/
def envMixed : Env :=
  { envLiteral with
    getAllInstances := .ok
      [cpuOnlyInst "1" "cpu-1", cpuOnlyInst "2" "cpu-2", cpuOnlyInst "3" "cpu-3",
       cpuOnlyInst "4" "cpu-4", cpuOnlyInst "5" "cpu-5", cpuOnlyInst "6" "cpu-6",
       cpuOnlyInst "7" "cpu-7", cpuOnlyInst "8" "cpu-8", cpuOnlyInst "9" "cpu-9",
       cpuOnlyInst "10" "cpu-10"]
    fetch := fetchMixed }

/-- Five in-scope VMs whose tasks all observe an expired deadline
(the deadline fires after scope resolution, before the tasks start). -/
def envExpired : Env :=
  { envLiteral with
    getAllInstances := .ok
      [cpuOnlyInst "1" "cpu-4", cpuOnlyInst "2" "cpu-5", cpuOnlyInst "3" "cpu-6",
       cpuOnlyInst "4" "cpu-7", cpuOnlyInst "5" "cpu-8"]
    fetch := fetchMixed
    taskCtxErr := fun _ => true }

/-- A VM whose `vcpus` series exists but is empty and whose `memory` series
fetch fails, for the empty-sample-sequence claim. -/
def tEmptySeries : InstanceWithDomain :=
  { inst := { id := "vm-e", displayName := "E",
              metrics := [("vcpus", "cpu-e"), ("memory", "mem-e")],
              projectID := "p1" }
    domainName := "dom1" }

/-- Oracle for `tEmptySeries`: empty sample list for CPU, failure for memory. -/
def fetchEmptySeries : Fetch := fun mid =>
  if mid = "cpu-e" then .ok []
  else .error "boom"

/-- A VM whose CPU fetch succeeds (value 2) while its memory fetch fails,
refuting the both-calls-succeeded reading of the accumulator invariant. -/
def tHalfFail : InstanceWithDomain :=
  { inst := { id := "vm-h", displayName := "H",
              metrics := [("vcpus", "cpu-h"), ("memory", "mem-h")],
              projectID := "p1" }
    domainName := "dom1" }

/-- Oracle for `tHalfFail`. -/
def fetchHalfFail : Fetch := fun mid =>
  if mid = "cpu-h" then .ok [{ timestamp := 0, value := 2 }]
  else .error "gnocchi 503"

/-- C3 claim, literally: with two in-scope VMs — A having most-recent CPU
sample 1.5 and memory sample 2048 MB, B having CPU sample 2.0 and no memory
key — the handler returns cpu_cores_used = 3.5, ram_used_gb = 2.0,
total_vms = 2, an empty error list, and status 200. -/
theorem c3_literal_scenario :
    getTotalUsage envLiteral =
      .response 200
        { totalVMs := 2, cpuCoresUsed := 7 / 2, ramUsedGB := 2, errors := [] } := by
  show HandlerResult.response 200
      { totalVMs := 2,
        cpuCoresUsed := ([(3 : ℚ) / 2, 2]).sum,
        ramUsedGB := ([(2048 : ℚ) / 1024, 0]).sum,
        errors := [] } = _
  refine congrArg (HandlerResult.response 200) ?_
  simp only [TotalUsage.mk.injEq, List.sum_cons, List.sum_nil]
  norm_num

/-- C4: with 10 in-scope VMs of which 3 have failing CPU fetches and 7
succeed (memory keys absent), the response has total_vms = 10, 3 errors, and
cpu_cores_used = 4+5+6+7+8+9+10 = 49 — the sum of exactly the succeeding
values; moreover total_vms always equals the scoped VM count, independent of
how many tasks succeeded. -/
theorem c4_partial_result :
    (getTotalUsage envMixed).body?.map TotalUsage.totalVMs = some 10 ∧
    (getTotalUsage envMixed).body?.map (fun b => b.errors.length) = some 3 ∧
    (getTotalUsage envMixed).body?.map TotalUsage.cpuCoresUsed = some 49 ∧
    (getTotalUsage envMixed).status = 206 ∧
    ∀ (f : Fetch) (c : ℕ → Bool) (se : List UsageError)
      (ts : List InstanceWithDomain),
      (aggregateUsage f c se ts).totalVMs = ts.length := by
  refine ⟨rfl, rfl, ?_, rfl, fun _ _ _ _ => rfl⟩
  show some (([0, 0, 0, (4 : ℚ), 5, 6, 7, 8, 9, 10]).sum) = some 49
  simp only [List.sum_cons, List.sum_nil]
  norm_num

/-- C7: a task that observes a cancelled context at start is independent of
the measure oracle (no metric I/O), records exactly one error carrying its
instance and project ids, and when every task of a run observes
cancellation the accumulator ends with zero totals and one cancellation
error per dispatched VM — and the handler still assembles a response body;
concretely, five dispatched VMs under an expired deadline yield five
cancellation errors, zero totals, and a 206 response. -/
theorem enum_map_snd_comp {α β : Type} (l : List α) (g : α → β) :
    l.enum.map (fun p => g p.2) = l.map g := by
  have h1 : (fun p : ℕ × α => g p.2) = g ∘ Prod.snd := rfl
  rw [h1, ← List.map_map, List.enum_map_snd]

theorem sum_map_const_zero {α : Type} (l : List α) :
    (l.map fun _ => (0 : ℚ)).sum = 0 := by
  induction l with
  | nil => rfl
  | cons a l ih => simp [ih]

theorem flatten_map_singleton {α β : Type} (l : List α) (g : α → β) :
    (l.map fun a => [g a]).flatten = l.map g := by
  induction l with
  | nil => rfl
  | cons a l ih => simp [ih]

theorem runTargets_all_cancelled (f : Fetch)
    (targets : List InstanceWithDomain) :
    runTargets f (fun _ => true) targets = (0, 0, targets.map cancelError) := by
  rw [runTargets_eq]
  show ((targets.enum.map fun _ => (0 : ℚ)).sum,
        (targets.enum.map fun _ => (0 : ℚ)).sum,
        (targets.enum.map fun p => [cancelError p.2]).flatten) = _
  rw [sum_map_const_zero, flatten_map_singleton, enum_map_snd_comp]

theorem c7_cancellation_before_start :
    (∀ (f g : Fetch) (t : InstanceWithDomain),
      processTarget f true t = processTarget g true t) ∧
    (∀ (f : Fetch) (t : InstanceWithDomain),
      processTarget f true t =
        (0, 0, [{ domainName := t.domainName, instanceID := t.inst.id,
                  projectID := t.inst.projectID,
                  error := "context cancelled while processing instance" }])) ∧
    (∀ (f : Fetch) (targets : List InstanceWithDomain),
      runTargets f (fun _ => true) targets = (0, 0, targets.map cancelError)) ∧
    (∀ (f : Fetch) (se : List UsageError) (targets : List InstanceWithDomain),
      aggregateUsage f (fun _ => true) se targets =
        { totalVMs := targets.length, cpuCoresUsed := 0, ramUsedGB := 0,
          errors := se ++ targets.map cancelError }) ∧
    getTotalUsage envExpired =
      .response 206
        { totalVMs := 5, cpuCoresUsed := 0, ramUsedGB := 0,
          errors :=
            ["vm-1", "vm-2", "vm-3", "vm-4", "vm-5"].map fun v =>
              { domainName := "dom1", instanceID := v, projectID := "p1",
                error := "context cancelled while processing instance" } } := by
  refine ⟨fun f g t => rfl, fun f t => rfl, runTargets_all_cancelled,
    fun f se targets => ?_, ?_⟩
  · unfold aggregateUsage
    rw [runTargets_all_cancelled]
  · show HandlerResult.response 206
        { totalVMs := 5,
          cpuCoresUsed := ([(0 : ℚ), 0, 0, 0, 0]).sum,
          ramUsedGB := ([(0 : ℚ), 0, 0, 0, 0]).sum,
          errors :=
            ["vm-1", "vm-2", "vm-3", "vm-4", "vm-5"].map fun v =>
              { domainName := "dom1", instanceID := v, projectID := "p1",
                error := "context cancelled while processing instance" } } = _
    refine congrArg (HandlerResult.response 206) ?_
    simp only [TotalUsage.mk.injEq, List.sum_cons, List.sum_nil]
    norm_num

/-- The literal reading of the accumulator invariant in the spec: a VM
contributes to the totals only if BOTH of its metric calls succeeded. -/
def contributesOnlyIfBothSucceeded : Prop :=
  ∀ (fetch : Fetch) (ctxErr : Bool) (t : InstanceWithDomain),
    bothCallsSucceeded fetch ctxErr t = false →
    (processTarget fetch ctxErr t).1 = 0 ∧ (processTarget fetch ctxErr t).2.1 = 0

/-- C1 counterexample: a VM whose CPU fetch succeeds with value 2 while its
memory fetch fails still contributes 2 to the CPU total, so the
both-calls-succeeded reading of the invariant is false on the code. -/
theorem c1_counterexample : ¬ contributesOnlyIfBothSucceeded := by
  intro h
  have h2 := (h fetchHalfFail false tHalfFail rfl).1
  have h3 : (processTarget fetchHalfFail false tHalfFail).1 = 2 := rfl
  rw [h3] at h2
  norm_num at h2

/-- C1, amended per metric: after the fan-out, the totals are the sums and
the error list the union over exactly the dispatched set, where each VM
contributes a metric value exactly when it is uncancelled and that metric's
own call produced a usable sample (independent of the other metric), and
records one error when cancelled, else one per failed metric call. -/
theorem c1_accumulator_invariant :
    ∀ (fetch : Fetch) (ctxErrAt : ℕ → Bool) (targets : List InstanceWithDomain)
      (b : Bool) (t : InstanceWithDomain),
      runTargets fetch ctxErrAt targets =
        ((targets.enum.map fun p => (processTarget fetch (ctxErrAt p.1) p.2).1).sum,
         (targets.enum.map fun p => (processTarget fetch (ctxErrAt p.1) p.2).2.1).sum,
         (targets.enum.map fun p => (processTarget fetch (ctxErrAt p.1) p.2).2.2).flatten) ∧
      (processTarget fetch b t).1 =
        (if b then 0
         else if metricAdded fetch t.inst "vcpus" then sampleValue fetch t.inst "vcpus"
         else 0) ∧
      (processTarget fetch b t).2.1 =
        (if b then 0
         else if metricAdded fetch t.inst "memory" then sampleValue fetch t.inst "memory" / 1024
         else 0) ∧
      (processTarget fetch b t).2.2.length =
        (if b then 1
         else (if metricFailed fetch t.inst "vcpus" then 1 else 0)
           + (if metricFailed fetch t.inst "memory" then 1 else 0)) :=
  fun f c ts b t =>
    ⟨runTargets_eq f c ts, processTarget_fst f b t, processTarget_snd f b t,
     processTarget_errs_length f b t⟩

/-- C2: each VM's CPU sample is summed into the CPU total with multiplicity
0 or 1 — the total is the sum, over the dispatched set, of `if` the task was
uncancelled and the metric produced a sample `then` that one sample `else`
0; same per VM for memory (scaled MB→GB). -/
theorem c2_no_double_counting :
    ∀ (fetch : Fetch) (ctxErrAt : ℕ → Bool) (targets : List InstanceWithDomain),
      (runTargets fetch ctxErrAt targets).1 =
        (targets.enum.map fun p =>
          if ctxErrAt p.1 = false ∧ metricAdded fetch p.2.inst "vcpus" = true
          then sampleValue fetch p.2.inst "vcpus" else 0).sum ∧
      (runTargets fetch ctxErrAt targets).2.1 =
        (targets.enum.map fun p =>
          if ctxErrAt p.1 = false ∧ metricAdded fetch p.2.inst "memory" = true
          then sampleValue fetch p.2.inst "memory" / 1024 else 0).sum := by
  intro f c ts
  constructor
  · rw [runTargets_eq]
    have hfun : (fun p : ℕ × InstanceWithDomain => (processTarget f (c p.1) p.2).1)
        = fun p =>
            if c p.1 = false ∧ metricAdded f p.2.inst "vcpus" = true
            then sampleValue f p.2.inst "vcpus" else 0 := by
      funext p
      rw [processTarget_fst]
      cases hb : c p.1 <;> cases ha : metricAdded f p.2.inst "vcpus" <;> simp
    dsimp only
    rw [hfun]
  · rw [runTargets_eq]
    have hfun : (fun p : ℕ × InstanceWithDomain => (processTarget f (c p.1) p.2).2.1)
        = fun p =>
            if c p.1 = false ∧ metricAdded f p.2.inst "memory" = true
            then sampleValue f p.2.inst "memory" / 1024 else 0 := by
      funext p
      rw [processTarget_snd]
      cases hb : c p.1 <;> cases ha : metricAdded f p.2.inst "memory" <;> simp
    dsimp only
    rw [hfun]

/-- C9: a present metric whose fetch succeeds with an empty sample sequence
contributes nothing and records no error — exactly the behaviour of an
absent metric key — while a failed fetch contributes nothing but records
exactly one error; stated for both metric kinds. -/
theorem c9_empty_sample_sequence :
    ∀ (f : Fetch) (t : InstanceWithDomain) (mid : String),
      (List.lookup "vcpus" t.inst.metrics = some mid → f mid = .ok [] →
        vcpuPhase f t = (0, [])) ∧
      (List.lookup "vcpus" t.inst.metrics = none → vcpuPhase f t = (0, [])) ∧
      (∀ e, List.lookup "vcpus" t.inst.metrics = some mid → f mid = .error e →
        (vcpuPhase f t).1 = 0 ∧ (vcpuPhase f t).2.length = 1) ∧
      (List.lookup "memory" t.inst.metrics = some mid → f mid = .ok [] →
        memoryPhase f t = (0, [])) ∧
      (List.lookup "memory" t.inst.metrics = none → memoryPhase f t = (0, [])) ∧
      (∀ e, List.lookup "memory" t.inst.metrics = some mid → f mid = .error e →
        (memoryPhase f t).1 = 0 ∧ (memoryPhase f t).2.length = 1) := by
  intro f t mid
  refine ⟨fun h1 h2 => ?_, fun h1 => ?_, fun e h1 h2 => ?_,
    fun h1 h2 => ?_, fun h1 => ?_, fun e h1 h2 => ?_⟩
  · simp [vcpuPhase, h1, h2]
  · simp [vcpuPhase, h1]
  · simp [vcpuPhase, h1, h2]
  · simp [memoryPhase, h1, h2]
  · simp [memoryPhase, h1]
  · simp [memoryPhase, h1, h2]

/-- Witness for C9 at a concrete VM: empty CPU sample sequence (no error,
no contribution) and failing memory fetch (exactly one error). -/
theorem c9_witness :
    vcpuPhase fetchEmptySeries tEmptySeries = (0, []) ∧
    (memoryPhase fetchEmptySeries tEmptySeries).2.length = 1 :=
  ⟨(c9_empty_sample_sequence fetchEmptySeries tEmptySeries "cpu-e").1 rfl rfl,
   ((c9_empty_sample_sequence fetchEmptySeries tEmptySeries "mem-e").2.2.2.2.2
      "boom" rfl rfl).2⟩

/-! Environments exercising each failure path of the handler. -/

/-- Domain file unreadable. -/
def envLoadFail : Env := { envLiteral with loadDomains := .error "io" }

/-- Domain file readable but empty. -/
def envNoDomains : Env := { envLiteral with loadDomains := .ok [] }

/-- Keystone admin authentication failure. -/
def envTokenFail : Env := { envLiteral with getAdminToken := .error "denied" }

/-- Gnocchi inventory listing failure. -/
def envInventoryFail : Env := { envLiteral with getAllInstances := .error "gone" }

/-- Every configured domain fails to resolve; inventory itself is healthy
(and empty). -/
def envAllDomainsFail : Env :=
  { envLiteral with
    listProjects := fun _ => .error "keystone 503"
    getAllInstances := .ok [] }

/-- Healthy scope with an empty inventory: a 200 response with zero totals. -/
def envNoInstances : Env := { envLiteral with getAllInstances := .ok [] }

/-- A domain counts as unresolvable when its project listing fails or
returns no projects. -/
def domainUnresolvable (lp : String → Except String (List KeystoneProject))
    (d : String) : Bool :=
  match lp d with
  | .ok (_ :: _) => false
  | _ => true

/-- The error record the resolution loop appends for an unresolvable
domain. -/
def unresolvedError (lp : String → Except String (List KeystoneProject))
    (d : String) : UsageError :=
  match lp d with
  | .error e =>
      { domainName := d, instanceID := "", projectID := "",
        error := "failed to list projects for domain: " ++ e }
  | .ok _ =>
      { domainName := d, instanceID := "", projectID := "",
        error := "no projects found for domain" }

theorem resolveScopeGo_all_unresolvable
    (lp : String → Except String (List KeystoneProject)) (ctx : ℕ → Bool)
    (hctx : ∀ j, ctx j = false) :
    ∀ (ds : List String) (i : ℕ) (acc : List (String × String))
      (errs : List UsageError),
      (∀ d ∈ ds, domainUnresolvable lp d = true) →
      resolveScopeGo lp ctx i ds acc errs =
        (acc, errs ++ ds.map (unresolvedError lp)) := by
  intro ds
  induction ds with
  | nil => intro i acc errs _; simp [resolveScopeGo]
  | cons d rest ih =>
      intro i acc errs hall
      have hd := hall d (List.mem_cons_self d rest)
      have hrest : ∀ x ∈ rest, domainUnresolvable lp x = true :=
        fun x hx => hall x (List.mem_cons_of_mem d hx)
      unfold resolveScopeGo
      rw [hctx i]
      cases hlp : lp d with
      | error e =>
          simp only [Bool.false_eq_true, if_false, hlp]
          rw [ih (i + 1) acc _ hrest]
          simp [unresolvedError, hlp]
      | ok ps =>
          cases ps with
          | nil =>
              simp only [Bool.false_eq_true, if_false, hlp]
              rw [ih (i + 1) acc _ hrest]
              simp [unresolvedError, hlp]
          | cons p ps' =>
              exact absurd hd (by simp [domainUnresolvable, hlp])

theorem scopedTargets_nil (instances : List GnocchiInstance) :
    scopedTargets [] instances = [] := by
  induction instances with
  | nil => rfl
  | cons a l ih =>
      simp only [scopedTargets, List.filterMap_cons] at ih ⊢
      exact ih

/-- An empty dispatched set leaves the accumulator at its zero state with
only the scope-resolution errors. -/
theorem aggregate_no_targets (f : Fetch) (c : ℕ → Bool) (se : List UsageError) :
    aggregateUsage f c se [] =
      { totalVMs := 0, cpuCoresUsed := 0, ramUsedGB := 0, errors := se } := by
  unfold aggregateUsage
  simp [runTargets]

/-- The spec's claimed status set: every request would end in 200, 206, 401
or 500. -/
def statusObeysSpecMapping : Prop :=
  ∀ env : Env,
    (getTotalUsage env).status = 200 ∨ (getTotalUsage env).status = 206 ∨
    (getTotalUsage env).status = 401 ∨ (getTotalUsage env).status = 500

/-- C6 counterexample: a readable but empty domain file is answered with
status 400 Bad Request, a status outside the claimed 200/206/401/500 set. -/
theorem c6_counterexample : ¬ statusObeysSpecMapping := by
  intro h
  have h4 := h envNoDomains
  rw [show (getTotalUsage envNoDomains).status = 400 from rfl] at h4
  rcases h4 with h4 | h4 | h4 | h4 <;> omega

/-- C6 amended: 500 for an unreadable domain file or a failed inventory
fetch, 400 for an empty domain list, 401 for a failed token acquisition —
in all of which aggregation never starts — and otherwise a response whose
status is 200 exactly when its error list is empty and 206 exactly when it
is not. -/
theorem c6_status_mapping (env : Env) :
    (∀ e, env.loadDomains = .error e →
      getTotalUsage env = .httpError 500 ("failed to load domain list: " ++ e)) ∧
    (env.loadDomains = .ok [] →
      getTotalUsage env = .httpError 400 "no domains configured in domain.txt") ∧
    (∀ ds e, env.loadDomains = .ok ds → ds ≠ [] → env.getAdminToken = .error e →
      getTotalUsage env = .httpError 401 ("failed to authenticate admin: " ++ e)) ∧
    (∀ ds tok e, env.loadDomains = .ok ds → ds ≠ [] →
      env.getAdminToken = .ok tok → env.getAllInstances = .error e →
      getTotalUsage env =
        .httpError 500 ("Failed to get instances from Gnocchi: " ++ e)) ∧
    (∀ s body, getTotalUsage env = .response s body →
      (body.errors = [] ∧ s = 200) ∨ (body.errors ≠ [] ∧ s = 206)) := by
  refine ⟨fun e he => ?_, fun he => ?_, fun ds e hds hne htok => ?_,
    fun ds tok e hds hne htok hinv => ?_, fun s body => ?_⟩
  · unfold getTotalUsage; rw [he]
  · unfold getTotalUsage; rw [he]; rfl
  · unfold getTotalUsage
    simp only [hds]
    rw [if_neg (fun hl => hne (List.length_eq_zero.mp hl))]
    rw [htok]
  · unfold getTotalUsage
    simp only [hds]
    rw [if_neg (fun hl => hne (List.length_eq_zero.mp hl))]
    rw [htok, hinv]
  · unfold getTotalUsage
    cases hld : env.loadDomains with
    | error e => intro h; simp at h
    | ok ds =>
        dsimp only
        by_cases hlen : ds.length = 0
        · rw [if_pos hlen]; intro h; simp at h
        · rw [if_neg hlen]
          cases htok : env.getAdminToken with
          | error e => intro h; simp at h
          | ok tok =>
              dsimp only
              cases hinv : env.getAllInstances with
              | error e => intro h; simp at h
              | ok instances =>
                  dsimp only
                  intro h
                  unfold aggregateResponse at h
                  obtain ⟨h1, h2⟩ := HandlerResult.response.inj h
                  subst h2
                  by_cases herr :
                      (aggregateUsage env.fetch env.taskCtxErr
                        (resolveScope env.listProjects env.resolveCtxErr ds).2
                        (scopedTargets
                          (resolveScope env.listProjects env.resolveCtxErr ds).1
                          instances)).errors = []
                  · refine Or.inl ⟨herr, ?_⟩
                    rw [← h1, herr]
                    rfl
                  · refine Or.inr ⟨herr, ?_⟩
                    rw [← h1, if_pos (List.length_pos.mpr herr)]

/-- Witness for C6 at concrete environments: one request per fatal branch,
plus a 206 response (one scope error, empty scope) and a 200 response
(healthy scope, empty inventory). -/
theorem c6_witness :
    getTotalUsage envLoadFail = .httpError 500 "failed to load domain list: io" ∧
    getTotalUsage envNoDomains =
      .httpError 400 "no domains configured in domain.txt" ∧
    getTotalUsage envTokenFail =
      .httpError 401 "failed to authenticate admin: denied" ∧
    getTotalUsage envInventoryFail =
      .httpError 500 "Failed to get instances from Gnocchi: gone" ∧
    (({ totalVMs := 0, cpuCoresUsed := 0, ramUsedGB := 0,
        errors := [{ domainName := "dom1", instanceID := "", projectID := "",
                     error := "failed to list projects for domain: keystone 503" }] }
        : TotalUsage).errors = [] ∧ 206 = 200 ∨
     ({ totalVMs := 0, cpuCoresUsed := 0, ramUsedGB := 0,
        errors := [{ domainName := "dom1", instanceID := "", projectID := "",
                     error := "failed to list projects for domain: keystone 503" }] }
        : TotalUsage).errors ≠ [] ∧ 206 = 206) ∧
    (({ totalVMs := 0, cpuCoresUsed := 0, ramUsedGB := 0, errors := [] }
        : TotalUsage).errors = [] ∧ 200 = 200 ∨
     ({ totalVMs := 0, cpuCoresUsed := 0, ramUsedGB := 0, errors := [] }
        : TotalUsage).errors ≠ [] ∧ 200 = 206) :=
  ⟨(c6_status_mapping envLoadFail).1 "io" rfl,
   (c6_status_mapping envNoDomains).2.1 rfl,
   (c6_status_mapping envTokenFail).2.2.1 ["dom1"] "denied" rfl (by simp) rfl,
   (c6_status_mapping envInventoryFail).2.2.2.1 ["dom1"] "token" "gone" rfl
     (by simp) rfl rfl,
   (c6_status_mapping envAllDomainsFail).2.2.2.2 206 _ rfl,
   (c6_status_mapping envNoInstances).2.2.2.2 200 _ rfl⟩

/-- The claim's reading of the empty-scope contract: whenever the loaded
domain list resolves to an empty project map, the request fails outright. -/
def emptyResolvedScopeIsFatal : Prop :=
  ∀ (env : Env) (ds : List String),
    env.loadDomains = .ok ds →
    (resolveScope env.listProjects env.resolveCtxErr ds).1 = [] →
    ∃ s m, getTotalUsage env = .httpError s m

/-- C5 counterexample: with one configured domain whose resolution fails,
the resolved scope is empty, yet the handler still fetches the inventory
and returns a 206 partial response (empty totals plus the per-domain
error) instead of failing. -/
theorem c5_counterexample : ¬ emptyResolvedScopeIsFatal := by
  intro h
  obtain ⟨s, m, hm⟩ := h envAllDomainsFail ["dom1"] rfl rfl
  rw [show getTotalUsage envAllDomainsFail =
      .response 206
        { totalVMs := 0, cpuCoresUsed := 0, ramUsedGB := 0,
          errors := [{ domainName := "dom1", instanceID := "", projectID := "",
                       error := "failed to list projects for domain: keystone 503" }] }
    from rfl] at hm
  simp at hm

/-- C5 amended: the request fails scope-fatally only when the domain-scope
input is unreadable (500) or loads as an empty list (400); when domains are
configured but every one of them fails to resolve or has no projects, the
inventory fetch still happens, zero VM tasks are dispatched, and a 206
partial response with zero totals and one error per domain is returned. -/
theorem c5_empty_scope_behaviour (env : Env) (ds : List String) (tok : String)
    (instances : List GnocchiInstance) :
    (∀ e, env.loadDomains = .error e →
      getTotalUsage env = .httpError 500 ("failed to load domain list: " ++ e)) ∧
    (env.loadDomains = .ok [] →
      getTotalUsage env = .httpError 400 "no domains configured in domain.txt") ∧
    (env.loadDomains = .ok ds → ds ≠ [] → env.getAdminToken = .ok tok →
      (∀ j, env.resolveCtxErr j = false) →
      (∀ d ∈ ds, domainUnresolvable env.listProjects d = true) →
      env.getAllInstances = .ok instances →
      getTotalUsage env =
        .response 206
          { totalVMs := 0, cpuCoresUsed := 0, ramUsedGB := 0,
            errors := ds.map (unresolvedError env.listProjects) }) := by
  refine ⟨fun e he => ?_, fun he => ?_, fun h1 h2 h3 h4 h5 h6 => ?_⟩
  · unfold getTotalUsage; rw [he]
  · unfold getTotalUsage; rw [he]; rfl
  · unfold getTotalUsage
    simp only [h1]
    rw [if_neg (fun hl => h2 (List.length_eq_zero.mp hl))]
    rw [h3]
    dsimp only
    rw [h6]
    have hres : resolveScope env.listProjects env.resolveCtxErr ds =
        ([], ds.map (unresolvedError env.listProjects)) := by
      unfold resolveScope
      rw [resolveScopeGo_all_unresolvable env.listProjects env.resolveCtxErr h4
        ds 0 [] [] h5]
      simp
    dsimp only
    rw [hres]
    dsimp only
    rw [scopedTargets_nil, aggregate_no_targets]
    unfold aggregateResponse
    have hmapne : ds.map (unresolvedError env.listProjects) ≠ [] :=
      fun hmap => h2 (List.map_eq_nil_iff.mp hmap)
    dsimp only
    rw [if_pos (List.length_pos.mpr hmapne)]

/-- Witness for C5 at concrete environments: the two genuinely fatal
branches, and the all-domains-fail branch that still yields a 206 partial
response. -/
theorem c5_witness :
    getTotalUsage envLoadFail = .httpError 500 "failed to load domain list: io" ∧
    getTotalUsage envNoDomains =
      .httpError 400 "no domains configured in domain.txt" ∧
    getTotalUsage envAllDomainsFail =
      .response 206
        { totalVMs := 0, cpuCoresUsed := 0, ramUsedGB := 0,
          errors := ["dom1"].map (unresolvedError envAllDomainsFail.listProjects) } :=
  ⟨(c5_empty_scope_behaviour envLoadFail [] "" []).1 "io" rfl,
   (c5_empty_scope_behaviour envNoDomains [] "" []).2.1 rfl,
   (c5_empty_scope_behaviour envAllDomainsFail ["dom1"] "token" []).2.2 rfl
     (by simp) rfl (fun j => rfl)
     (by intro d hd; simp at hd; subst hd; rfl) rfl⟩

/-! C8: the semaphore bound. -/

theorem inFlightCount_cons (x : Phase) (l : List Phase) :
    inFlightCount (x :: l) =
      inFlightCount l + (if x = Phase.inFlight then 1 else 0) := by
  simp [inFlightCount, List.countP_cons]

theorem inFlightCount_middle (pre post : List Phase) (x : Phase) :
    inFlightCount (pre ++ x :: post) =
      inFlightCount pre + inFlightCount post +
        (if x = Phase.inFlight then 1 else 0) := by
  unfold inFlightCount
  rw [List.countP_append, List.countP_cons]
  simp [inFlightCount]
  omega

theorem inFlightCount_replicate_waiting (n : ℕ) :
    inFlightCount (List.replicate n Phase.waiting) = 0 := by
  induction n with
  | zero => rfl
  | succ k ih =>
      rw [List.replicate_succ, inFlightCount_cons, ih]
      rfl

/-- C8: in every state reachable by interleaving the per-task
acquire/release transitions of the fan-out's counting semaphore, at most
`cap` tasks are inside their network-I/O section simultaneously; a task
enters that section only through `acquire` (blocked while `cap` permits are
held) and leaves it through the unconditional deferred `release`. -/
theorem c8_bounded_concurrency (cap n : ℕ) (s : List Phase)
    (h : SemReachable cap n s) : inFlightCount s ≤ cap := by
  have h' : Relation.ReflTransGen (SemStep cap)
      (List.replicate n Phase.waiting) s := h
  clear h
  induction h' with
  | refl => rw [inFlightCount_replicate_waiting]; omega
  | tail hab hbc ih =>
      cases hbc with
      | acquire pre post hlt =>
          rw [inFlightCount_middle,
            if_neg (by decide : ¬(Phase.waiting = Phase.inFlight))] at hlt
          rw [inFlightCount_middle, if_pos rfl]
          omega
      | release pre post =>
          have ih' := ih
          rw [inFlightCount_middle, if_pos rfl] at ih'
          rw [inFlightCount_middle,
            if_neg (by decide : ¬(Phase.finished = Phase.inFlight))]
          omega

/-- Witness for C8: from two waiting tasks with capacity 1, one acquire
step reaches a state whose in-flight count the theorem bounds by 1. -/
theorem c8_witness : inFlightCount [Phase.inFlight, Phase.waiting] ≤ 1 :=
  c8_bounded_concurrency 1 2 [Phase.inFlight, Phase.waiting]
    (Relation.ReflTransGen.single
      (SemStep.acquire [] [Phase.waiting] (by decide)))

/-! C10: billing CPU-percentage derivation. -/

theorem cpuPercentLoop_eq_spec (v : ℚ) (hv : 0 < v) :
    ∀ l : List MetricMeasure,
      l.Chain' (fun a b => a.timestamp < b.timestamp) →
      cpuPercentLoop v l = specCPUPercentages l v
  | [] => fun _ => rfl
  | [_] => fun _ => rfl
  | m1 :: m2 :: rest => fun hch => by
      have h12 : m1.timestamp < m2.timestamp := (List.chain'_cons.mp hch).1
      have htl : (m2 :: rest).Chain' (fun a b => a.timestamp < b.timestamp) :=
        (List.chain'_cons.mp hch).2
      have ih := cpuPercentLoop_eq_spec v hv (m2 :: rest) htl
      have hdt : (0 : ℚ) < m2.timestamp - m1.timestamp := by linarith
      have hdenom : (0 : ℚ) < (m2.timestamp - m1.timestamp) * v * 10 ^ 9 :=
        mul_pos (mul_pos hdt hv) (by norm_num)
      have hloop : cpuPercentLoop v (m1 :: m2 :: rest) =
          (if m2.value - m1.value < 0 then cpuPercentLoop v (m2 :: rest)
           else if m2.timestamp - m1.timestamp ≤ 0 then cpuPercentLoop v (m2 :: rest)
           else if (m2.value - m1.value) /
                  ((m2.timestamp - m1.timestamp) * v * 10 ^ 9) * 100 < 0 ∨
                (m2.value - m1.value) /
                  ((m2.timestamp - m1.timestamp) * v * 10 ^ 9) * 100 >
                  100 * (11 / 10)
           then cpuPercentLoop v (m2 :: rest)
           else (m2.value - m1.value) /
                  ((m2.timestamp - m1.timestamp) * v * 10 ^ 9) * 100 ::
                cpuPercentLoop v (m2 :: rest)) := rfl
      have hspec : specCPUPercentages (m1 :: m2 :: rest) v =
          (if m2.value - m1.value < 0 ∨
              (m2.value - m1.value) /
                ((m2.timestamp - m1.timestamp) * v * 10 ^ 9) * 100 < 0 ∨
              (m2.value - m1.value) /
                ((m2.timestamp - m1.timestamp) * v * 10 ^ 9) * 100 > 110
           then specCPUPercentages (m2 :: rest) v
           else (m2.value - m1.value) /
                  ((m2.timestamp - m1.timestamp) * v * 10 ^ 9) * 100 ::
                specCPUPercentages (m2 :: rest) v) := by
        conv_lhs => unfold specCPUPercentages
        simp only [List.tail_cons, List.zip_cons_cons, List.filterMap_cons]
        by_cases hc : (m2.value - m1.value < 0 ∨
            (m2.value - m1.value) /
              ((m2.timestamp - m1.timestamp) * v * 10 ^ 9) * 100 < 0 ∨
            (m2.value - m1.value) /
              ((m2.timestamp - m1.timestamp) * v * 10 ^ 9) * 100 > 110)
        · rw [if_pos hc, if_pos hc]
          rfl
        · rw [if_neg hc, if_neg hc]
          rfl
      rw [hloop, ih, hspec]
      have h110 : (100 : ℚ) * (11 / 10) = 110 := by norm_num
      by_cases hneg : m2.value - m1.value < 0
      · rw [if_pos hneg, if_pos (Or.inl hneg)]
      · rw [if_neg hneg, if_neg (not_le.mpr hdt)]
        have hpct0 : 0 ≤ (m2.value - m1.value) /
            ((m2.timestamp - m1.timestamp) * v * 10 ^ 9) * 100 :=
          mul_nonneg (div_nonneg (by linarith) hdenom.le) (by norm_num)
        by_cases hbig : (m2.value - m1.value) /
            ((m2.timestamp - m1.timestamp) * v * 10 ^ 9) * 100 > 110
        · rw [if_pos (Or.inr (by rw [h110]; exact hbig)),
            if_pos (Or.inr (Or.inr hbig))]
        · have hnotloop : ¬((m2.value - m1.value) /
                ((m2.timestamp - m1.timestamp) * v * 10 ^ 9) * 100 < 0 ∨
              (m2.value - m1.value) /
                ((m2.timestamp - m1.timestamp) * v * 10 ^ 9) * 100 >
                100 * (11 / 10)) := by
            rw [h110]
            intro hx
            rcases hx with hx | hx
            · exact absurd hx (not_lt.mpr hpct0)
            · exact hbig hx
          have hnotspec : ¬(m2.value - m1.value < 0 ∨
              (m2.value - m1.value) /
                ((m2.timestamp - m1.timestamp) * v * 10 ^ 9) * 100 < 0 ∨
              (m2.value - m1.value) /
                ((m2.timestamp - m1.timestamp) * v * 10 ^ 9) * 100 > 110) := by
            intro hx
            rcases hx with hx | hx | hx
            · exact hneg hx
            · exact absurd hx (not_lt.mpr hpct0)
            · exact hbig hx
          rw [if_neg hnotloop, if_neg hnotspec]

/-- C10: for at least two cumulative CPU-time samples in strictly
increasing time order and a positive vcpus count, the retained per-interval
percentage series of `CalculateCPUUsage` equals exactly the spec's: each
interval's percentage is (Δcumulative_ns / (Δtime_s × vcpus × 1e9)) × 100,
and an interval is excluded precisely when its cumulative delta is negative
or its percentage lies outside [0, 110]. -/
theorem c10_cpu_percentage_refinement
    (measures : List MetricMeasure) (numVCPUs : ℤ)
    (hlen : 2 ≤ measures.length) (hv : 0 < numVCPUs)
    (hord : measures.Chain' (fun a b => a.timestamp < b.timestamp)) :
    calculateCPUPercentages measures numVCPUs =
      specCPUPercentages measures (numVCPUs : ℚ) := by
  unfold calculateCPUPercentages
  rw [if_neg (by omega)]
  rw [if_neg (by omega : ¬numVCPUs ≤ 0)]
  exact cpuPercentLoop_eq_spec (numVCPUs : ℚ) (by exact_mod_cast hv) measures hord

/-- Three cumulative samples: a healthy 50% interval followed by a
counter-reset (negative delta) interval. -/
def measuresW : List MetricMeasure :=
  [{ timestamp := 0, value := 0 },
   { timestamp := 300, value := 150 * 10 ^ 9 },
   { timestamp := 600, value := 100 * 10 ^ 9 }]

/-- Witness for C10 at the concrete sample list `measuresW` with 1 vCPU. -/
theorem c10_witness :
    2 ≤ measuresW.length ∧ (0 : ℤ) < 1 ∧
    measuresW.Chain' (fun a b => a.timestamp < b.timestamp) ∧
    calculateCPUPercentages measuresW 1 = specCPUPercentages measuresW 1 := by
  have hord : measuresW.Chain' (fun a b => a.timestamp < b.timestamp) := by
    unfold measuresW
    refine List.chain'_cons.mpr ⟨by norm_num, List.chain'_cons.mpr
      ⟨by norm_num, List.chain'_singleton _⟩⟩
  refine ⟨by norm_num [measuresW], by norm_num, hord, ?_⟩
  have h := c10_cpu_percentage_refinement measuresW 1 (by norm_num [measuresW])
    (by norm_num) hord
  simpa using h

end VhiResource
